import Mathlib

/-!
Shallow embedding of the Game Boy emulator core (`src/cpu.ts`, `src/gpu.ts`,
`src/interfaces.ts`) for checking the natural-language specification.

TypeScript numbers behave, under the bitwise operators used by the source, as
JavaScript 32-bit conversions: `&`, `|`, `^`, `<<` convert their operands with
ToInt32/ToUint32 (shift counts are taken mod 32) and produce a signed 32-bit
result; `>>` is the arithmetic (sign-propagating) shift.  Outside the bitwise
operators, arithmetic (`+`, `-`, comparisons) is exact on the integer values the
emulator manipulates, so registers are modelled as `Int` and the bitwise
operators as the `js*` functions below.
-/

/-- ToUint32: the 32-bit unsigned interpretation of a JavaScript integer. -/
def toUint32 (n : Int) : Nat := (n % 4294967296).toNat

/-- ToInt32: the 32-bit signed interpretation of a JavaScript integer. -/
def toInt32 (n : Int) : Int :=
  let u := toUint32 n
  if u < 2147483648 then (u : Int) else (u : Int) - 4294967296

/-- JavaScript `a & b`. -/
def jsAnd (a b : Int) : Int := toInt32 (Int.ofNat (Nat.land (toUint32 a) (toUint32 b)))

/-- JavaScript `a | b`. -/
def jsOr (a b : Int) : Int := toInt32 (Int.ofNat (Nat.lor (toUint32 a) (toUint32 b)))

/-- JavaScript `a ^ b`. -/
def jsXor (a b : Int) : Int := toInt32 (Int.ofNat (Nat.xor (toUint32 a) (toUint32 b)))

/-- JavaScript `a << b`: shift count mod 32, result reinterpreted as Int32. -/
def jsShl (a b : Int) : Int :=
  toInt32 (Int.ofNat (Nat.shiftLeft (toUint32 a) (toUint32 b % 32) % 4294967296))

/-- JavaScript `a >> b`: arithmetic shift of the Int32 value, i.e. flooring
division by a power of two. -/
def jsShr (a b : Int) : Int := Int.fdiv (toInt32 a) (2 ^ (toUint32 b % 32))

/-- JavaScript `~a`. -/
def jsNot (a : Int) : Int := -(toInt32 a) - 1

namespace Cpu

/-- `IRegisterSet` of `cpu.ts`: eight 8-bit registers, flags, `pc` and `sp`.
TypeScript stores plain numbers, so the fields are unbounded `Int`s; any
masking is done explicitly by the operations, exactly as in the source. -/
structure IRegisterSet where
  a : Int
  b : Int
  c : Int
  d : Int
  e : Int
  h : Int
  l : Int
  /-- The flags register: bits 7..4 are Z N H C, bits 3..0 documented as 0. -/
  f : Int
  /-- Program counter -/
  pc : Int
  /-- Stack pointer -/
  sp : Int

/- `const enum Flags` of `cpu.ts`. -/
namespace Flags

def Z : Int := 0b10000000
def N : Int := 0b01000000
def H : Int := 0b00100000
def C : Int := 0b00010000

end Flags

/-- The `IMemory` interface of `interfaces.ts`, as a record of pure functions
over an abstract memory state `μ`: `rb`/`rw` read a byte/word, `wb`/`ww`
write and return the updated memory. -/
structure IMemory (μ : Type) where
  rb : μ → Int → Int
  rw : μ → Int → Int
  wb : μ → Int → Int → μ
  ww : μ → Int → Int → μ

/-- `IOperation` of `cpu.ts`: an opcode's effect on registers and memory
together with the cycle cost it returns. -/
def IOperation (μ : Type) : Type := IRegisterSet → μ → (IRegisterSet × μ) × Int

/-- `createOp` of `cpu.ts`: pair an effect with its fixed cycle cost. -/
def createOp {μ : Type} (f : IRegisterSet → μ → IRegisterSet × μ) (cost : Int) :
    IOperation μ :=
  fun r m => (f r m, cost)

/-- `toSigned` of `cpu.ts`. -/
def toSigned (v : Int) : Int :=
  if v ≤ 127 then v else -(jsAnd (jsNot v + 1) 255)

/-- `resetFlags` of `cpu.ts`: recompute `f` from scratch, setting Z iff the
masked 8-bit result is zero.  (The source mutates `r.f`; here the new flags
value is returned.) -/
def resetFlags (result : Int) : Int :=
  let f : Int := 0
  if jsAnd result 255 = 0 then jsOr f Flags.Z else f

/-- `add` of `cpu.ts` (returns the new `(a, f)`).  The source has
`// TODO: This is meant to set H if carry from bit 3` — H is never set. -/
def add (a value : Int) : Int × Int :=
  let a1 := a + value
  let f1 := resetFlags a1
  let f2 := if 255 < a1 then jsOr f1 Flags.C else f1
  (jsAnd a1 255, f2)

/-- `sub` of `cpu.ts` (returns the new `(a, f)`); H is never set. -/
def sub (a value : Int) : Int × Int :=
  let a1 := a - value
  let f1 := resetFlags a1
  let f2 := jsOr f1 Flags.N
  let f3 := if a1 < 0 then jsOr f2 Flags.C else f2
  (jsAnd a1 255, f3)

/-- `and` of `cpu.ts` (returns the new `(a, f)`): H always set. -/
def and (a value : Int) : Int × Int :=
  let a1 := jsAnd a value
  let f1 := resetFlags a1
  let f2 := if 255 < a1 then jsOr f1 Flags.C else f1
  let f3 := jsOr f2 Flags.H
  (jsAnd a1 255, f3)

/-- `or` of `cpu.ts` (returns the new `(a, f)`). -/
def or (a value : Int) : Int × Int :=
  let a1 := jsOr a value
  (jsAnd a1 255, resetFlags a1)

/-- `xor` of `cpu.ts` (returns the new `(a, f)`). -/
def xor (a value : Int) : Int × Int :=
  let a1 := jsXor a value
  (jsAnd a1 255, resetFlags a1)

/-- `cp` of `cpu.ts` (returns the new `f`; `a` is unchanged). -/
def cp (a value : Int) : Int :=
  let v := a - value
  let f1 := resetFlags v
  let f2 := jsOr f1 Flags.N
  if v < 0 then jsOr f2 Flags.C else f2

/-- `inc` of `cpu.ts` (returns the new `(field, f)`; `max` is 255 for 8-bit
registers, 65535 for `sp`). -/
def inc (v max : Int) : Int × Int :=
  let v1 := jsAnd (v + 1) max
  (v1, resetFlags v1)

/-- `inc2` of `cpu.ts` (returns the new `(hi, lo)`; flags untouched). -/
def inc2 (hi lo : Int) : Int × Int :=
  let lo1 := jsAnd (lo + 1) 255
  let hi1 := if lo1 = 0 then jsAnd (hi + 1) 255 else hi
  (hi1, lo1)

/-- `dec` of `cpu.ts` (returns the new `(field, f)`). -/
def dec (v max : Int) : Int × Int :=
  let v1 := jsAnd (v - 1) max
  (v1, resetFlags v1)

/-- `dec2` of `cpu.ts` (returns the new `(hi, lo)`; note the source tests
`=== 0` after decrementing, exactly as transcribed). -/
def dec2 (hi lo : Int) : Int × Int :=
  let lo1 := jsAnd (lo - 1) 255
  let hi1 := if lo1 = 0 then jsAnd (hi - 1) 255 else hi
  (hi1, lo1)

/-- `addHl` of `cpu.ts` (returns the new `f`; the source never writes the sum
back to `h`/`l`, and `r.h << 8 + r.l + value` parses as
`r.h << (8 + r.l + value)`). -/
def addHl (h l value : Int) : Int :=
  let hl := jsShl h (8 + l + value)
  let f1 : Int := 0
  if 65535 < hl then jsOr f1 Flags.C else f1

/-- `swap` of `cpu.ts` (returns the new `(field, f)`). -/
def swap (v : Int) : Int × Int :=
  let v1 := jsAnd (jsOr (jsShr v 4) (jsShl v 4)) 255
  (v1, resetFlags v1)

section Operations

variable {μ : Type} (P : IMemory μ)

/- The operation object `o` of `cpu.ts`.  Each definition transcribes one
entry.  Note that every register-pair address in the source is written
`r.h << 8 + r.l`, which parses as `r.h << (8 + r.l)` — transcribed as
`jsShl r.h (8 + r.l)`, preserving the source's operator precedence. -/

def LD_A_A : IOperation μ := createOp (fun r m => ({ r with a := r.a }, m)) 1

def LD_A_B : IOperation μ := createOp (fun r m => ({ r with a := r.b }, m)) 1

def LD_A_C : IOperation μ := createOp (fun r m => ({ r with a := r.c }, m)) 1

def LD_A_D : IOperation μ := createOp (fun r m => ({ r with a := r.d }, m)) 1

def LD_A_E : IOperation μ := createOp (fun r m => ({ r with a := r.e }, m)) 1

def LD_A_H : IOperation μ := createOp (fun r m => ({ r with a := r.h }, m)) 1

def LD_A_L : IOperation μ := createOp (fun r m => ({ r with a := r.l }, m)) 1

def LD_A_BC : IOperation μ :=
  createOp (fun r m => ({ r with a := P.rb m (jsShl r.b (8 + r.c)) }, m)) 2

def LD_A_DE : IOperation μ :=
  createOp (fun r m => ({ r with a := P.rb m (jsShl r.d (8 + r.e)) }, m)) 2

def LD_A_HL : IOperation μ :=
  createOp (fun r m => ({ r with a := P.rb m (jsShl r.h (8 + r.l)) }, m)) 2

def LD_A_nn : IOperation μ :=
  createOp (fun r m => ({ r with a := P.rb m (P.rw m r.pc), pc := r.pc + 2 }, m)) 4

def LD_A_n : IOperation μ :=
  createOp (fun r m => ({ r with a := P.rb m r.pc, pc := r.pc + 1 }, m)) 2

def LD_B_A : IOperation μ := createOp (fun r m => ({ r with b := r.a }, m)) 1

def LD_B_B : IOperation μ := createOp (fun r m => ({ r with b := r.b }, m)) 1

def LD_B_C : IOperation μ := createOp (fun r m => ({ r with b := r.c }, m)) 1

def LD_B_D : IOperation μ := createOp (fun r m => ({ r with b := r.d }, m)) 1

def LD_B_E : IOperation μ := createOp (fun r m => ({ r with b := r.e }, m)) 1

def LD_B_H : IOperation μ := createOp (fun r m => ({ r with b := r.h }, m)) 1

def LD_B_L : IOperation μ := createOp (fun r m => ({ r with b := r.l }, m)) 1

def LD_B_BC : IOperation μ :=
  createOp (fun r m => ({ r with b := P.rb m (jsShl r.b (8 + r.c)) }, m)) 2

def LD_B_DE : IOperation μ :=
  createOp (fun r m => ({ r with b := P.rb m (jsShl r.d (8 + r.e)) }, m)) 2

def LD_B_HL : IOperation μ :=
  createOp (fun r m => ({ r with b := P.rb m (jsShl r.h (8 + r.l)) }, m)) 2

def LD_B_nn : IOperation μ :=
  createOp (fun r m => ({ r with b := P.rb m (P.rw m r.pc), pc := r.pc + 2 }, m)) 4

def LD_B_n : IOperation μ :=
  createOp (fun r m => ({ r with b := P.rb m r.pc, pc := r.pc + 1 }, m)) 2

def LD_C_A : IOperation μ := createOp (fun r m => ({ r with c := r.a }, m)) 1

def LD_C_B : IOperation μ := createOp (fun r m => ({ r with c := r.b }, m)) 1

def LD_C_C : IOperation μ := createOp (fun r m => ({ r with c := r.c }, m)) 1

def LD_C_D : IOperation μ := createOp (fun r m => ({ r with c := r.d }, m)) 1

def LD_C_E : IOperation μ := createOp (fun r m => ({ r with c := r.e }, m)) 1

def LD_C_H : IOperation μ := createOp (fun r m => ({ r with c := r.h }, m)) 1

def LD_C_L : IOperation μ := createOp (fun r m => ({ r with c := r.l }, m)) 1

def LD_C_BC : IOperation μ :=
  createOp (fun r m => ({ r with c := P.rb m (jsShl r.b (8 + r.c)) }, m)) 2

def LD_C_DE : IOperation μ :=
  createOp (fun r m => ({ r with c := P.rb m (jsShl r.d (8 + r.e)) }, m)) 2

def LD_C_HL : IOperation μ :=
  createOp (fun r m => ({ r with c := P.rb m (jsShl r.h (8 + r.l)) }, m)) 2

def LD_C_nn : IOperation μ :=
  createOp (fun r m => ({ r with c := P.rb m (P.rw m r.pc), pc := r.pc + 2 }, m)) 4

def LD_C_n : IOperation μ :=
  createOp (fun r m => ({ r with c := P.rb m r.pc, pc := r.pc + 1 }, m)) 2

def LD_D_A : IOperation μ := createOp (fun r m => ({ r with d := r.a }, m)) 1

def LD_D_B : IOperation μ := createOp (fun r m => ({ r with d := r.b }, m)) 1

def LD_D_C : IOperation μ := createOp (fun r m => ({ r with d := r.c }, m)) 1

def LD_D_D : IOperation μ := createOp (fun r m => ({ r with d := r.d }, m)) 1

def LD_D_E : IOperation μ := createOp (fun r m => ({ r with d := r.e }, m)) 1

def LD_D_H : IOperation μ := createOp (fun r m => ({ r with d := r.h }, m)) 1

def LD_D_L : IOperation μ := createOp (fun r m => ({ r with d := r.l }, m)) 1

def LD_D_BC : IOperation μ :=
  createOp (fun r m => ({ r with d := P.rb m (jsShl r.b (8 + r.c)) }, m)) 2

def LD_D_DE : IOperation μ :=
  createOp (fun r m => ({ r with d := P.rb m (jsShl r.d (8 + r.e)) }, m)) 2

def LD_D_HL : IOperation μ :=
  createOp (fun r m => ({ r with d := P.rb m (jsShl r.h (8 + r.l)) }, m)) 2

def LD_D_nn : IOperation μ :=
  createOp (fun r m => ({ r with d := P.rb m (P.rw m r.pc), pc := r.pc + 2 }, m)) 4

def LD_D_n : IOperation μ :=
  createOp (fun r m => ({ r with d := P.rb m r.pc, pc := r.pc + 1 }, m)) 2

def LD_E_A : IOperation μ := createOp (fun r m => ({ r with e := r.a }, m)) 1

def LD_E_B : IOperation μ := createOp (fun r m => ({ r with e := r.b }, m)) 1

def LD_E_C : IOperation μ := createOp (fun r m => ({ r with e := r.c }, m)) 1

def LD_E_D : IOperation μ := createOp (fun r m => ({ r with e := r.d }, m)) 1

def LD_E_E : IOperation μ := createOp (fun r m => ({ r with e := r.e }, m)) 1

def LD_E_H : IOperation μ := createOp (fun r m => ({ r with e := r.h }, m)) 1

def LD_E_L : IOperation μ := createOp (fun r m => ({ r with e := r.l }, m)) 1

def LD_E_BC : IOperation μ :=
  createOp (fun r m => ({ r with e := P.rb m (jsShl r.b (8 + r.c)) }, m)) 2

def LD_E_DE : IOperation μ :=
  createOp (fun r m => ({ r with e := P.rb m (jsShl r.d (8 + r.e)) }, m)) 2

def LD_E_HL : IOperation μ :=
  createOp (fun r m => ({ r with e := P.rb m (jsShl r.h (8 + r.l)) }, m)) 2

def LD_E_nn : IOperation μ :=
  createOp (fun r m => ({ r with e := P.rb m (P.rw m r.pc), pc := r.pc + 2 }, m)) 4

def LD_E_n : IOperation μ :=
  createOp (fun r m => ({ r with e := P.rb m r.pc, pc := r.pc + 1 }, m)) 2

def LD_H_A : IOperation μ := createOp (fun r m => ({ r with h := r.a }, m)) 1

def LD_H_B : IOperation μ := createOp (fun r m => ({ r with h := r.b }, m)) 1

def LD_H_C : IOperation μ := createOp (fun r m => ({ r with h := r.c }, m)) 1

def LD_H_D : IOperation μ := createOp (fun r m => ({ r with h := r.d }, m)) 1

def LD_H_E : IOperation μ := createOp (fun r m => ({ r with h := r.e }, m)) 1

def LD_H_H : IOperation μ := createOp (fun r m => ({ r with h := r.h }, m)) 1

def LD_H_L : IOperation μ := createOp (fun r m => ({ r with h := r.l }, m)) 1

def LD_H_BC : IOperation μ :=
  createOp (fun r m => ({ r with h := P.rb m (jsShl r.b (8 + r.c)) }, m)) 2

def LD_H_DE : IOperation μ :=
  createOp (fun r m => ({ r with h := P.rb m (jsShl r.d (8 + r.e)) }, m)) 2

def LD_H_HL : IOperation μ :=
  createOp (fun r m => ({ r with h := P.rb m (jsShl r.h (8 + r.l)) }, m)) 2

def LD_H_nn : IOperation μ :=
  createOp (fun r m => ({ r with h := P.rb m (P.rw m r.pc), pc := r.pc + 2 }, m)) 4

def LD_H_n : IOperation μ :=
  createOp (fun r m => ({ r with h := P.rb m r.pc, pc := r.pc + 1 }, m)) 2

def LD_L_A : IOperation μ := createOp (fun r m => ({ r with l := r.a }, m)) 1

def LD_L_B : IOperation μ := createOp (fun r m => ({ r with l := r.b }, m)) 1

def LD_L_C : IOperation μ := createOp (fun r m => ({ r with l := r.c }, m)) 1

def LD_L_D : IOperation μ := createOp (fun r m => ({ r with l := r.d }, m)) 1

def LD_L_E : IOperation μ := createOp (fun r m => ({ r with l := r.e }, m)) 1

def LD_L_H : IOperation μ := createOp (fun r m => ({ r with l := r.h }, m)) 1

def LD_L_L : IOperation μ := createOp (fun r m => ({ r with l := r.l }, m)) 1

def LD_L_BC : IOperation μ :=
  createOp (fun r m => ({ r with l := P.rb m (jsShl r.b (8 + r.c)) }, m)) 2

def LD_L_DE : IOperation μ :=
  createOp (fun r m => ({ r with l := P.rb m (jsShl r.d (8 + r.e)) }, m)) 2

def LD_L_HL : IOperation μ :=
  createOp (fun r m => ({ r with l := P.rb m (jsShl r.h (8 + r.l)) }, m)) 2

def LD_L_nn : IOperation μ :=
  createOp (fun r m => ({ r with l := P.rb m (P.rw m r.pc), pc := r.pc + 2 }, m)) 4

def LD_L_n : IOperation μ :=
  createOp (fun r m => ({ r with l := P.rb m r.pc, pc := r.pc + 1 }, m)) 2

def LD_HL_B : IOperation μ :=
  createOp (fun r m => (r, P.wb m (jsShl r.h (8 + r.l)) r.b)) 2

def LD_HL_C : IOperation μ :=
  createOp (fun r m => (r, P.wb m (jsShl r.h (8 + r.l)) r.c)) 2

def LD_HL_D : IOperation μ :=
  createOp (fun r m => (r, P.wb m (jsShl r.h (8 + r.l)) r.d)) 2

def LD_HL_E : IOperation μ :=
  createOp (fun r m => (r, P.wb m (jsShl r.h (8 + r.l)) r.e)) 2

def LD_HL_H : IOperation μ :=
  createOp (fun r m => (r, P.wb m (jsShl r.h (8 + r.l)) r.h)) 2

def LD_HL_L : IOperation μ :=
  createOp (fun r m => (r, P.wb m (jsShl r.h (8 + r.l)) r.l)) 2

def LD_HL_n : IOperation μ :=
  createOp (fun r m =>
    ({ r with pc := r.pc + 1 }, P.wb m (jsShl r.h (8 + r.l)) (P.rb m r.pc))) 3

def LD_BC_A : IOperation μ :=
  createOp (fun r m => (r, P.wb m (jsShl r.b (8 + r.c)) r.a)) 2

def LD_DE_A : IOperation μ :=
  createOp (fun r m => (r, P.wb m (jsShl r.d (8 + r.e)) r.a)) 2

def LD_HL_A : IOperation μ :=
  createOp (fun r m => (r, P.wb m (jsShl r.h (8 + r.l)) r.a)) 2

def LD_nn_A : IOperation μ :=
  createOp (fun r m => ({ r with pc := r.pc + 2 }, P.wb m (P.rw m r.pc) r.a)) 4

def LD_A_FFC : IOperation μ :=
  createOp (fun r m => ({ r with a := P.rb m (0xFF00 + r.c) }, m)) 2

def LD_FFC_A : IOperation μ :=
  createOp (fun r m => (r, P.wb m (0xFF00 + r.c) r.a)) 2

def LD_A_HLD : IOperation μ :=
  createOp (fun r m =>
    let (r1, m1) := (LD_A_HL P r m).1
    let l1 := jsAnd (r1.l - 1) 255
    let h1 := if l1 = 255 then jsAnd (r1.h - 1) 255 else r1.h
    ({ r1 with l := l1, h := h1 }, m1)) 2

def LD_HLD_A : IOperation μ :=
  createOp (fun r m =>
    let (r1, m1) := (LD_HL_A P r m).1
    let l1 := jsAnd (r1.l - 1) 255
    let h1 := if l1 = 255 then jsAnd (r1.h - 1) 255 else r1.h
    ({ r1 with l := l1, h := h1 }, m1)) 2

def LD_A_HLI : IOperation μ :=
  createOp (fun r m =>
    let (r1, m1) := (LD_A_HL P r m).1
    let l1 := jsAnd (r1.l + 1) 255
    let h1 := if l1 = 0 then jsAnd (r1.h + 1) 255 else r1.h
    ({ r1 with l := l1, h := h1 }, m1)) 2

def LD_HLI_A : IOperation μ :=
  createOp (fun r m =>
    let (r1, m1) := (LD_HL_A P r m).1
    let l1 := jsAnd (r1.l + 1) 255
    let h1 := if l1 = 0 then jsAnd (r1.h + 1) 255 else r1.h
    ({ r1 with l := l1, h := h1 }, m1)) 2

def LD_FFn_A : IOperation μ :=
  createOp (fun r m =>
    ({ r with pc := r.pc + 1 }, P.wb m (0xFF00 + P.rb m r.pc) r.a)) 3

def LD_A_FFn : IOperation μ :=
  createOp (fun r m =>
    ({ r with a := P.rb m (0xFF00 + P.rb m r.pc), pc := r.pc + 1 }, m)) 3

def LD_BC_nn : IOperation μ :=
  createOp (fun r m =>
    ({ r with c := P.rb m r.pc, b := P.rb m (r.pc + 1), pc := r.pc + 2 }, m)) 3

def LD_DE_nn : IOperation μ :=
  createOp (fun r m =>
    ({ r with e := P.rb m r.pc, d := P.rb m (r.pc + 1), pc := r.pc + 2 }, m)) 3

def LD_HL_nn : IOperation μ :=
  createOp (fun r m =>
    ({ r with l := P.rb m r.pc, h := P.rb m (r.pc + 1), pc := r.pc + 2 }, m)) 3

def LD_SP_nn : IOperation μ :=
  createOp (fun r m => ({ r with sp := P.rw m r.pc, pc := r.pc + 2 }, m)) 3

def LD_SP_HL : IOperation μ :=
  createOp (fun r m =>
    ({ r with sp := jsOr (jsShl (P.rb m r.h) 8) (P.rb m r.l) }, m)) 2

def LD_HL_SPn : IOperation μ :=
  createOp (fun r m =>
    let v := toSigned (P.rb m r.pc) + r.sp
    ({ r with pc := r.pc + 1, h := jsAnd (jsShr v 8) 255, l := jsAnd v 255 }, m)) 3

def LD_nn_SP : IOperation μ :=
  createOp (fun r m => ({ r with pc := r.pc + 2 }, P.ww m (P.rw m r.pc) r.sp)) 5

/- `m.wb(--r.sp, x)` pre-decrements `sp` and writes at the decremented
address; the two writes of a push therefore hit `sp-1` then `sp-2`. -/

def PUSH_AF : IOperation μ :=
  createOp (fun r m =>
    let sp1 := r.sp - 1
    let m1 := P.wb m sp1 r.a
    let sp2 := sp1 - 1
    let m2 := P.wb m1 sp2 r.f
    ({ r with sp := sp2 }, m2)) 4

def PUSH_BC : IOperation μ :=
  createOp (fun r m =>
    let sp1 := r.sp - 1
    let m1 := P.wb m sp1 r.b
    let sp2 := sp1 - 1
    let m2 := P.wb m1 sp2 r.c
    ({ r with sp := sp2 }, m2)) 4

def PUSH_DE : IOperation μ :=
  createOp (fun r m =>
    let sp1 := r.sp - 1
    let m1 := P.wb m sp1 r.d
    let sp2 := sp1 - 1
    let m2 := P.wb m1 sp2 r.e
    ({ r with sp := sp2 }, m2)) 4

def PUSH_HL : IOperation μ :=
  createOp (fun r m =>
    let sp1 := r.sp - 1
    let m1 := P.wb m sp1 r.h
    let sp2 := sp1 - 1
    let m2 := P.wb m1 sp2 r.l
    ({ r with sp := sp2 }, m2)) 4

def POP_AF : IOperation μ :=
  createOp (fun r m =>
    ({ r with f := P.rb m r.sp, a := P.rb m (r.sp + 1), sp := r.sp + 2 }, m)) 3

def POP_BC : IOperation μ :=
  createOp (fun r m =>
    ({ r with c := P.rb m r.sp, b := P.rb m (r.sp + 1), sp := r.sp + 2 }, m)) 3

def POP_DE : IOperation μ :=
  createOp (fun r m =>
    ({ r with e := P.rb m r.sp, d := P.rb m (r.sp + 1), sp := r.sp + 2 }, m)) 3

def POP_HL : IOperation μ :=
  createOp (fun r m =>
    ({ r with l := P.rb m r.sp, h := P.rb m (r.sp + 1), sp := r.sp + 2 }, m)) 3

def ADD_A : IOperation μ :=
  createOp (fun r m => let (a1, f1) := add r.a r.a; ({ r with a := a1, f := f1 }, m)) 1

def ADD_B : IOperation μ :=
  createOp (fun r m => let (a1, f1) := add r.a r.b; ({ r with a := a1, f := f1 }, m)) 1

def ADD_C : IOperation μ :=
  createOp (fun r m => let (a1, f1) := add r.a r.c; ({ r with a := a1, f := f1 }, m)) 1

def ADD_D : IOperation μ :=
  createOp (fun r m => let (a1, f1) := add r.a r.d; ({ r with a := a1, f := f1 }, m)) 1

def ADD_E : IOperation μ :=
  createOp (fun r m => let (a1, f1) := add r.a r.e; ({ r with a := a1, f := f1 }, m)) 1

def ADD_H : IOperation μ :=
  createOp (fun r m => let (a1, f1) := add r.a r.h; ({ r with a := a1, f := f1 }, m)) 1

def ADD_L : IOperation μ :=
  createOp (fun r m => let (a1, f1) := add r.a r.l; ({ r with a := a1, f := f1 }, m)) 1

def ADD_HLM : IOperation μ :=
  createOp (fun r m =>
    let (a1, f1) := add r.a (P.rb m (jsShl r.h (8 + r.l)))
    ({ r with a := a1, f := f1 }, m)) 2

def ADD_n : IOperation μ :=
  createOp (fun r m =>
    let (a1, f1) := add r.a (P.rb m r.pc)
    ({ r with a := a1, f := f1, pc := r.pc + 1 }, m)) 2

/- `r.f & Flags.C ? 1 : 0`: the carry-in is 1 exactly when the C bit is set. -/

def ADC_A : IOperation μ :=
  createOp (fun r m =>
    let (a1, f1) := add r.a (r.a + (if jsAnd r.f Flags.C ≠ 0 then 1 else 0))
    ({ r with a := a1, f := f1 }, m)) 1

def ADC_B : IOperation μ :=
  createOp (fun r m =>
    let (a1, f1) := add r.a (r.b + (if jsAnd r.f Flags.C ≠ 0 then 1 else 0))
    ({ r with a := a1, f := f1 }, m)) 1

def ADC_C : IOperation μ :=
  createOp (fun r m =>
    let (a1, f1) := add r.a (r.c + (if jsAnd r.f Flags.C ≠ 0 then 1 else 0))
    ({ r with a := a1, f := f1 }, m)) 1

def ADC_D : IOperation μ :=
  createOp (fun r m =>
    let (a1, f1) := add r.a (r.d + (if jsAnd r.f Flags.C ≠ 0 then 1 else 0))
    ({ r with a := a1, f := f1 }, m)) 1

def ADC_E : IOperation μ :=
  createOp (fun r m =>
    let (a1, f1) := add r.a (r.e + (if jsAnd r.f Flags.C ≠ 0 then 1 else 0))
    ({ r with a := a1, f := f1 }, m)) 1

def ADC_H : IOperation μ :=
  createOp (fun r m =>
    let (a1, f1) := add r.a (r.h + (if jsAnd r.f Flags.C ≠ 0 then 1 else 0))
    ({ r with a := a1, f := f1 }, m)) 1

def ADC_L : IOperation μ :=
  createOp (fun r m =>
    let (a1, f1) := add r.a (r.l + (if jsAnd r.f Flags.C ≠ 0 then 1 else 0))
    ({ r with a := a1, f := f1 }, m)) 1

def ADC_HLM : IOperation μ :=
  createOp (fun r m =>
    let (a1, f1) :=
      add r.a (P.rb m (jsShl r.h (8 + r.l)) + (if jsAnd r.f Flags.C ≠ 0 then 1 else 0))
    ({ r with a := a1, f := f1 }, m)) 2

def ADC_n : IOperation μ :=
  createOp (fun r m =>
    let (a1, f1) := add r.a (P.rb m r.pc + (if jsAnd r.f Flags.C ≠ 0 then 1 else 0))
    ({ r with a := a1, f := f1, pc := r.pc + 1 }, m)) 2

def SUB_A : IOperation μ :=
  createOp (fun r m => let (a1, f1) := sub r.a r.a; ({ r with a := a1, f := f1 }, m)) 1

def SUB_B : IOperation μ :=
  createOp (fun r m => let (a1, f1) := sub r.a r.b; ({ r with a := a1, f := f1 }, m)) 1

def SUB_C : IOperation μ :=
  createOp (fun r m => let (a1, f1) := sub r.a r.c; ({ r with a := a1, f := f1 }, m)) 1

def SUB_D : IOperation μ :=
  createOp (fun r m => let (a1, f1) := sub r.a r.d; ({ r with a := a1, f := f1 }, m)) 1

def SUB_E : IOperation μ :=
  createOp (fun r m => let (a1, f1) := sub r.a r.e; ({ r with a := a1, f := f1 }, m)) 1

def SUB_H : IOperation μ :=
  createOp (fun r m => let (a1, f1) := sub r.a r.h; ({ r with a := a1, f := f1 }, m)) 1

def SUB_L : IOperation μ :=
  createOp (fun r m => let (a1, f1) := sub r.a r.l; ({ r with a := a1, f := f1 }, m)) 1

def SUB_HLM : IOperation μ :=
  createOp (fun r m =>
    let (a1, f1) := sub r.a (P.rb m (jsShl r.h (8 + r.l)))
    ({ r with a := a1, f := f1 }, m)) 2

def SUB_n : IOperation μ :=
  createOp (fun r m =>
    let (a1, f1) := sub r.a (P.rb m r.pc)
    ({ r with a := a1, f := f1, pc := r.pc + 1 }, m)) 2

def SBC_A : IOperation μ :=
  createOp (fun r m =>
    let (a1, f1) := sub r.a (r.a + (if jsAnd r.f Flags.C ≠ 0 then 1 else 0))
    ({ r with a := a1, f := f1 }, m)) 1

def SBC_B : IOperation μ :=
  createOp (fun r m =>
    let (a1, f1) := sub r.a (r.b + (if jsAnd r.f Flags.C ≠ 0 then 1 else 0))
    ({ r with a := a1, f := f1 }, m)) 1

def SBC_C : IOperation μ :=
  createOp (fun r m =>
    let (a1, f1) := sub r.a (r.c + (if jsAnd r.f Flags.C ≠ 0 then 1 else 0))
    ({ r with a := a1, f := f1 }, m)) 1

def SBC_D : IOperation μ :=
  createOp (fun r m =>
    let (a1, f1) := sub r.a (r.d + (if jsAnd r.f Flags.C ≠ 0 then 1 else 0))
    ({ r with a := a1, f := f1 }, m)) 1

def SBC_E : IOperation μ :=
  createOp (fun r m =>
    let (a1, f1) := sub r.a (r.e + (if jsAnd r.f Flags.C ≠ 0 then 1 else 0))
    ({ r with a := a1, f := f1 }, m)) 1

def SBC_H : IOperation μ :=
  createOp (fun r m =>
    let (a1, f1) := sub r.a (r.h + (if jsAnd r.f Flags.C ≠ 0 then 1 else 0))
    ({ r with a := a1, f := f1 }, m)) 1

def SBC_L : IOperation μ :=
  createOp (fun r m =>
    let (a1, f1) := sub r.a (r.l + (if jsAnd r.f Flags.C ≠ 0 then 1 else 0))
    ({ r with a := a1, f := f1 }, m)) 1

def SBC_HLM : IOperation μ :=
  createOp (fun r m =>
    let (a1, f1) :=
      sub r.a (P.rb m (jsShl r.h (8 + r.l)) + (if jsAnd r.f Flags.C ≠ 0 then 1 else 0))
    ({ r with a := a1, f := f1 }, m)) 2

def AND_A : IOperation μ :=
  createOp (fun r m => let (a1, f1) := and r.a r.a; ({ r with a := a1, f := f1 }, m)) 1

def AND_B : IOperation μ :=
  createOp (fun r m => let (a1, f1) := and r.a r.b; ({ r with a := a1, f := f1 }, m)) 1

def AND_C : IOperation μ :=
  createOp (fun r m => let (a1, f1) := and r.a r.c; ({ r with a := a1, f := f1 }, m)) 1

def AND_D : IOperation μ :=
  createOp (fun r m => let (a1, f1) := and r.a r.d; ({ r with a := a1, f := f1 }, m)) 1

def AND_E : IOperation μ :=
  createOp (fun r m => let (a1, f1) := and r.a r.e; ({ r with a := a1, f := f1 }, m)) 1

def AND_H : IOperation μ :=
  createOp (fun r m => let (a1, f1) := and r.a r.h; ({ r with a := a1, f := f1 }, m)) 1

def AND_L : IOperation μ :=
  createOp (fun r m => let (a1, f1) := and r.a r.l; ({ r with a := a1, f := f1 }, m)) 1

def AND_HLM : IOperation μ :=
  createOp (fun r m =>
    let (a1, f1) := and r.a (P.rb m (jsShl r.h (8 + r.l)))
    ({ r with a := a1, f := f1 }, m)) 2

def AND_n : IOperation μ :=
  createOp (fun r m =>
    let (a1, f1) := and r.a (P.rb m r.pc)
    ({ r with a := a1, f := f1, pc := r.pc + 1 }, m)) 2

def OR_A : IOperation μ :=
  createOp (fun r m => let (a1, f1) := or r.a r.a; ({ r with a := a1, f := f1 }, m)) 1

def OR_B : IOperation μ :=
  createOp (fun r m => let (a1, f1) := or r.a r.b; ({ r with a := a1, f := f1 }, m)) 1

def OR_C : IOperation μ :=
  createOp (fun r m => let (a1, f1) := or r.a r.c; ({ r with a := a1, f := f1 }, m)) 1

def OR_D : IOperation μ :=
  createOp (fun r m => let (a1, f1) := or r.a r.d; ({ r with a := a1, f := f1 }, m)) 1

def OR_E : IOperation μ :=
  createOp (fun r m => let (a1, f1) := or r.a r.e; ({ r with a := a1, f := f1 }, m)) 1

def OR_H : IOperation μ :=
  createOp (fun r m => let (a1, f1) := or r.a r.h; ({ r with a := a1, f := f1 }, m)) 1

def OR_L : IOperation μ :=
  createOp (fun r m => let (a1, f1) := or r.a r.l; ({ r with a := a1, f := f1 }, m)) 1

def OR_HLM : IOperation μ :=
  createOp (fun r m =>
    let (a1, f1) := or r.a (P.rb m (jsShl r.h (8 + r.l)))
    ({ r with a := a1, f := f1 }, m)) 2

def OR_n : IOperation μ :=
  createOp (fun r m =>
    let (a1, f1) := or r.a (P.rb m r.pc)
    ({ r with a := a1, f := f1, pc := r.pc + 1 }, m)) 2

def XOR_A : IOperation μ :=
  createOp (fun r m => let (a1, f1) := xor r.a r.a; ({ r with a := a1, f := f1 }, m)) 1

def XOR_B : IOperation μ :=
  createOp (fun r m => let (a1, f1) := xor r.a r.b; ({ r with a := a1, f := f1 }, m)) 1

def XOR_C : IOperation μ :=
  createOp (fun r m => let (a1, f1) := xor r.a r.c; ({ r with a := a1, f := f1 }, m)) 1

def XOR_D : IOperation μ :=
  createOp (fun r m => let (a1, f1) := xor r.a r.d; ({ r with a := a1, f := f1 }, m)) 1

def XOR_E : IOperation μ :=
  createOp (fun r m => let (a1, f1) := xor r.a r.e; ({ r with a := a1, f := f1 }, m)) 1

def XOR_H : IOperation μ :=
  createOp (fun r m => let (a1, f1) := xor r.a r.h; ({ r with a := a1, f := f1 }, m)) 1

def XOR_L : IOperation μ :=
  createOp (fun r m => let (a1, f1) := xor r.a r.l; ({ r with a := a1, f := f1 }, m)) 1

def XOR_HLM : IOperation μ :=
  createOp (fun r m =>
    let (a1, f1) := xor r.a (P.rb m (jsShl r.h (8 + r.l)))
    ({ r with a := a1, f := f1 }, m)) 2

def XOR_n : IOperation μ :=
  createOp (fun r m =>
    let (a1, f1) := xor r.a (P.rb m r.pc)
    ({ r with a := a1, f := f1, pc := r.pc + 1 }, m)) 2

def CP_A : IOperation μ :=
  createOp (fun r m => ({ r with f := cp r.a r.a }, m)) 1

def CP_B : IOperation μ :=
  createOp (fun r m => ({ r with f := cp r.a r.b }, m)) 1

def CP_C : IOperation μ :=
  createOp (fun r m => ({ r with f := cp r.a r.c }, m)) 1

def CP_D : IOperation μ :=
  createOp (fun r m => ({ r with f := cp r.a r.d }, m)) 1

def CP_E : IOperation μ :=
  createOp (fun r m => ({ r with f := cp r.a r.e }, m)) 1

def CP_H : IOperation μ :=
  createOp (fun r m => ({ r with f := cp r.a r.h }, m)) 1

def CP_L : IOperation μ :=
  createOp (fun r m => ({ r with f := cp r.a r.l }, m)) 1

def CP_HLM : IOperation μ :=
  createOp (fun r m => ({ r with f := cp r.a (P.rb m (jsShl r.h (8 + r.l))) }, m)) 2

def CP_n : IOperation μ :=
  createOp (fun r m => ({ r with f := cp r.a (P.rb m r.pc), pc := r.pc + 1 }, m)) 2

def INC_A : IOperation μ :=
  createOp (fun r m => let (v, f1) := inc r.a 255; ({ r with a := v, f := f1 }, m)) 1

def INC_B : IOperation μ :=
  createOp (fun r m => let (v, f1) := inc r.b 255; ({ r with b := v, f := f1 }, m)) 1

def INC_C : IOperation μ :=
  createOp (fun r m => let (v, f1) := inc r.c 255; ({ r with c := v, f := f1 }, m)) 1

def INC_D : IOperation μ :=
  createOp (fun r m => let (v, f1) := inc r.d 255; ({ r with d := v, f := f1 }, m)) 1

def INC_E : IOperation μ :=
  createOp (fun r m => let (v, f1) := inc r.e 255; ({ r with e := v, f := f1 }, m)) 1

def INC_H : IOperation μ :=
  createOp (fun r m => let (v, f1) := inc r.h 255; ({ r with h := v, f := f1 }, m)) 1

def INC_L : IOperation μ :=
  createOp (fun r m => let (v, f1) := inc r.l 255; ({ r with l := v, f := f1 }, m)) 1

def INC_HLM : IOperation μ :=
  createOp (fun r m =>
    let i := jsShl r.h (8 + r.l)
    let v := jsAnd (P.rb m i + 1) 255
    ({ r with f := resetFlags v }, P.wb m i v)) 3

def DEC_A : IOperation μ :=
  createOp (fun r m => let (v, f1) := dec r.a 255; ({ r with a := v, f := f1 }, m)) 1

def DEC_B : IOperation μ :=
  createOp (fun r m => let (v, f1) := dec r.b 255; ({ r with b := v, f := f1 }, m)) 1

def DEC_C : IOperation μ :=
  createOp (fun r m => let (v, f1) := dec r.c 255; ({ r with c := v, f := f1 }, m)) 1

def DEC_D : IOperation μ :=
  createOp (fun r m => let (v, f1) := dec r.d 255; ({ r with d := v, f := f1 }, m)) 1

def DEC_E : IOperation μ :=
  createOp (fun r m => let (v, f1) := dec r.e 255; ({ r with e := v, f := f1 }, m)) 1

def DEC_H : IOperation μ :=
  createOp (fun r m => let (v, f1) := dec r.h 255; ({ r with h := v, f := f1 }, m)) 1

def DEC_L : IOperation μ :=
  createOp (fun r m => let (v, f1) := dec r.l 255; ({ r with l := v, f := f1 }, m)) 1

def DEC_HLM : IOperation μ :=
  createOp (fun r m =>
    let i := jsShl r.h (8 + r.l)
    let v := jsAnd (P.rb m i - 1) 255
    ({ r with f := resetFlags v }, P.wb m i v)) 3

def ADD_HL_BC : IOperation μ :=
  createOp (fun r m => ({ r with f := addHl r.h r.l (jsShl r.b (8 + r.c)) }, m)) 2

def ADD_HL_DE : IOperation μ :=
  createOp (fun r m => ({ r with f := addHl r.h r.l (jsShl r.d (8 + r.e)) }, m)) 2

def ADD_HL_HL : IOperation μ :=
  createOp (fun r m => ({ r with f := addHl r.h r.l (jsShl r.h (8 + r.l)) }, m)) 2

def ADD_HL_SP : IOperation μ :=
  createOp (fun r m => ({ r with f := addHl r.h r.l r.sp }, m)) 2

def ADD_SP_n : IOperation μ :=
  createOp (fun r m =>
    ({ r with sp := r.sp + toSigned (P.rb m r.pc), pc := r.pc + 1, f := 0 }, m)) 4

def INC_BC : IOperation μ :=
  createOp (fun r m => let (hi, lo) := inc2 r.b r.c; ({ r with b := hi, c := lo }, m)) 2

def INC_DE : IOperation μ :=
  createOp (fun r m => let (hi, lo) := inc2 r.d r.e; ({ r with d := hi, e := lo }, m)) 2

def INC_HL : IOperation μ :=
  createOp (fun r m => let (hi, lo) := inc2 r.h r.l; ({ r with h := hi, l := lo }, m)) 2

def INC_SP : IOperation μ :=
  createOp (fun r m => let (v, f1) := inc r.sp 65535; ({ r with sp := v, f := f1 }, m)) 2

def DEC_BC : IOperation μ :=
  createOp (fun r m => let (hi, lo) := dec2 r.b r.c; ({ r with b := hi, c := lo }, m)) 2

def DEC_DE : IOperation μ :=
  createOp (fun r m => let (hi, lo) := dec2 r.d r.e; ({ r with d := hi, e := lo }, m)) 2

def DEC_HL : IOperation μ :=
  createOp (fun r m => let (hi, lo) := dec2 r.h r.l; ({ r with h := hi, l := lo }, m)) 2

def DEC_SP : IOperation μ :=
  createOp (fun r m => let (v, f1) := dec r.sp 65535; ({ r with sp := v, f := f1 }, m)) 2

def SWAP_A : IOperation μ :=
  createOp (fun r m => let (v, f1) := swap r.a; ({ r with a := v, f := f1 }, m)) 2

def SWAP_B : IOperation μ :=
  createOp (fun r m => let (v, f1) := swap r.b; ({ r with b := v, f := f1 }, m)) 2

def SWAP_C : IOperation μ :=
  createOp (fun r m => let (v, f1) := swap r.c; ({ r with c := v, f := f1 }, m)) 2

def SWAP_D : IOperation μ :=
  createOp (fun r m => let (v, f1) := swap r.d; ({ r with d := v, f := f1 }, m)) 2

def SWAP_E : IOperation μ :=
  createOp (fun r m => let (v, f1) := swap r.e; ({ r with e := v, f := f1 }, m)) 2

def SWAP_H : IOperation μ :=
  createOp (fun r m => let (v, f1) := swap r.h; ({ r with h := v, f := f1 }, m)) 2

def SWAP_L : IOperation μ :=
  createOp (fun r m => let (v, f1) := swap r.l; ({ r with l := v, f := f1 }, m)) 2

def SWAP_HLM : IOperation μ :=
  createOp (fun r m =>
    let i := jsShl r.h (8 + r.l)
    let hlm := P.rb m i
    let v := jsAnd (jsOr (jsShr hlm 4) (jsShl hlm 4)) 255
    ({ r with f := resetFlags v }, P.wb m i v)) 4

def NOP : IOperation μ := createOp (fun r m => (r, m)) 1

/-- `oMap` of `cpu.ts`: the primary dispatch table, 256 slots, `none` for the
source's `undefined` holes.  (Operations that never touch memory do not take
the memory port `P`.) -/
def oMap : List (Option (IOperation μ)) := [
  -- 00
  some NOP,
  some (LD_BC_nn P),
  some (LD_BC_A P),
  some INC_BC,
  some INC_B,
  some DEC_B,
  some (LD_B_n P),
  none,
  some (LD_nn_SP P),
  some ADD_HL_BC,
  some (LD_A_BC P),
  some DEC_BC,
  some INC_C,
  some DEC_C,
  some (LD_C_n P),
  none,
  -- 10
  none,
  some (LD_DE_nn P),
  some (LD_DE_A P),
  some INC_DE,
  some INC_D,
  some DEC_D,
  some (LD_D_n P),
  none,
  none,
  some ADD_HL_DE,
  some (LD_A_DE P),
  some DEC_DE,
  some INC_E,
  some DEC_E,
  some (LD_E_n P),
  none,
  -- 20
  none,
  some (LD_HL_nn P),
  some (LD_HLI_A P),
  some (INC_HLM P),
  some INC_H,
  some DEC_H,
  some (LD_H_n P),
  none,
  none,
  some ADD_HL_HL,
  some (LD_A_HLI P),
  some DEC_HL,
  some INC_L,
  some DEC_L,
  some (LD_L_n P),
  none,
  -- 30
  none,
  some (LD_SP_nn P),
  some (LD_HLD_A P),
  some INC_SP,
  some INC_HL,
  some (DEC_HLM P),
  some (LD_HL_n P),
  none,
  none,
  some ADD_HL_SP,
  some (LD_A_HLD P),
  some DEC_SP,
  some INC_A,
  some DEC_A,
  some (LD_A_n P),
  none,
  -- 40
  some LD_B_B,
  some LD_B_C,
  some LD_B_D,
  some LD_B_E,
  some LD_B_H,
  some LD_B_L,
  some (LD_B_HL P),
  some LD_B_A,
  some LD_C_B,
  some LD_C_C,
  some LD_C_D,
  some LD_C_E,
  some LD_C_H,
  some LD_C_L,
  some (LD_C_HL P),
  some LD_C_A,
  -- 50
  some LD_D_B,
  some LD_D_C,
  some LD_D_D,
  some LD_D_E,
  some LD_D_H,
  some LD_D_L,
  some (LD_D_HL P),
  some LD_D_A,
  some LD_E_B,
  some LD_E_C,
  some LD_E_D,
  some LD_E_E,
  some LD_E_H,
  some LD_E_L,
  some (LD_E_HL P),
  some LD_E_A,
  -- 60
  some LD_H_B,
  some LD_H_C,
  some LD_H_D,
  some LD_H_E,
  some LD_H_H,
  some LD_H_L,
  some (LD_H_HL P),
  some LD_H_A,
  some LD_L_B,
  some LD_L_C,
  some LD_L_D,
  some LD_L_E,
  some LD_L_H,
  some LD_L_L,
  some (LD_L_HL P),
  some LD_L_A,
  -- 70
  some (LD_HL_B P),
  some (LD_HL_C P),
  some (LD_HL_D P),
  some (LD_HL_E P),
  some (LD_HL_H P),
  some (LD_HL_L P),
  some (LD_HL_A P),
  none,
  some LD_A_B,
  some LD_A_C,
  some LD_A_D,
  some LD_A_E,
  some LD_A_H,
  some LD_A_L,
  some (LD_A_HL P),
  some LD_A_A,
  -- 80
  some ADD_B,
  some ADD_C,
  some ADD_D,
  some ADD_E,
  some ADD_H,
  some ADD_L,
  some (ADD_HLM P),
  some ADD_A,
  some ADC_B,
  some ADC_C,
  some ADC_D,
  some ADC_E,
  some ADC_H,
  some ADC_L,
  some (ADC_HLM P),
  some ADC_A,
  -- 90
  some SUB_B,
  some SUB_C,
  some SUB_D,
  some SUB_E,
  some SUB_H,
  some SUB_L,
  some (SUB_HLM P),
  some SUB_A,
  some SBC_B,
  some SBC_C,
  some SBC_D,
  some SBC_E,
  some SBC_H,
  some SBC_L,
  some (SBC_HLM P),
  some SBC_A,
  -- A0
  some AND_B,
  some AND_C,
  some AND_D,
  some AND_E,
  some AND_H,
  some AND_L,
  some (AND_HLM P),
  some AND_A,
  some XOR_B,
  some XOR_C,
  some XOR_D,
  some XOR_E,
  some XOR_H,
  some XOR_L,
  some (XOR_HLM P),
  some XOR_A,
  -- B0
  some OR_B,
  some OR_C,
  some OR_D,
  some OR_E,
  some OR_H,
  some OR_L,
  some (OR_HLM P),
  some OR_A,
  some CP_B,
  some CP_C,
  some CP_D,
  some CP_E,
  some CP_H,
  some CP_L,
  some (CP_HLM P),
  some CP_A,
  -- C0
  none,
  some (POP_BC P),
  none,
  none,
  none,
  some (PUSH_BC P),
  some (ADD_n P),
  none,
  none,
  none,
  none,
  none,
  none,
  none,
  some (ADC_n P),
  none,
  -- D0
  none,
  some (POP_DE P),
  none,
  none,
  none,
  some (PUSH_DE P),
  some (SUB_n P),
  none,
  none,
  none,
  none,
  none,
  none,
  none,
  none,
  none,
  -- E0
  some (LD_FFn_A P),
  some (POP_HL P),
  some (LD_FFC_A P),
  none,
  none,
  some (PUSH_HL P),
  some (AND_n P),
  none,
  some (ADD_SP_n P),
  none,
  some (LD_nn_A P),
  none,
  none,
  none,
  some (XOR_n P),
  none,
  -- F0
  some (LD_A_FFn P),
  some (POP_AF P),
  some (LD_A_FFC P),
  none,
  none,
  some (PUSH_AF P),
  some (OR_n P),
  none,
  some (LD_HL_SPn P),
  some (LD_SP_HL P),
  some (LD_A_nn P),
  none,
  none,
  none,
  none,
  none
]

/-- `oCbMap` of `cpu.ts`: the CB-prefixed dispatch table.  Only the SWAP row
(CB 30–37) is populated; the source array stops after row CB 70 (128 slots).
Note that nothing in `cycle` ever consults this table. -/
def oCbMap : List (Option (IOperation μ)) :=
  -- CB 00 – CB 2F
  List.replicate 48 none ++
  -- CB 30
  [some SWAP_B,
   some SWAP_C,
   some SWAP_D,
   some SWAP_E,
   some SWAP_H,
   some SWAP_L,
   some (SWAP_HLM P),
   some SWAP_A] ++
  -- CB 38 – CB 3F
  List.replicate 8 none ++
  -- CB 40 – CB 7F
  List.replicate 64 none

/-- JavaScript array indexing `oMap[opcode]`: out-of-range (or fractional /
negative) indices yield `undefined`, i.e. `none`. -/
def lookup (opcode : Int) : Option (IOperation μ) :=
  if opcode < 0 then none else (oMap P).getD opcode.toNat none

end Operations

/-- Result of one `Cpu.cycle`: either the mutated registers and memory plus
the cycle cost the operation returned, or the thrown
`opcode ... not implemented` error.  The error message interpolates only the
opcode byte; the register state at throw time (with `pc` already advanced past
the fetched byte) is retained by the `Cpu` object. -/
inductive CycleResult (μ : Type) where
  | ok : IRegisterSet → μ → Int → CycleResult μ
  | err : Int → IRegisterSet → μ → CycleResult μ

/-- `Cpu.cycle` of `cpu.ts`: fetch the byte at `pc` (post-incrementing `pc`),
dispatch through the primary table only, and either run the operation or
throw.  There is no 0xCB handling here. -/
def cycle {μ : Type} (P : IMemory μ) (r : IRegisterSet) (m : μ) : CycleResult μ :=
  let opcode := P.rb m r.pc
  let r1 : IRegisterSet := { r with pc := r.pc + 1 }
  match lookup P opcode with
  | some op =>
    let rm := op r1 m
    CycleResult.ok rm.1.1 rm.1.2 rm.2
  | none => CycleResult.err opcode r1 m

end Cpu

/-- A test memory: an unconstrained byte store over the full `Int` address
space in which a written value reads back — the memory model that claims about
stack round-trips presuppose.  (The word operations are the little-endian
compositions of the byte operations; no theorem below depends on them.) -/
def Store : Type := Int → Int

/-- The byte-store implementation of the `IMemory` port. -/
def store : Cpu.IMemory Store where
  rb m a := m a
  rw m a := m a + 256 * m (a + 1)
  wb m a v := fun x => if x = a then v else m x
  ww m a v := fun x => if x = a + 1 then jsShr v 8 else if x = a then jsAnd v 255 else m x

namespace Gpu

/-- `const enum Modes` of `gpu.ts` (HBlank = 0 is also the initial `_mode`). -/
inductive Modes where
  | HBlank
  | VBlank
  | OamRead
  | VramRead
  deriving DecidableEq

/-- The mutable PPU state of the `Gpu` class: `_mode`, `_modeclock`, `_line`. -/
structure State where
  mode : Modes
  modeclock : Nat
  line : Nat
  deriving DecidableEq

/-- `Gpu.step` of `gpu.ts`: add the elapsed cycles to `_modeclock`, then apply
at most one mode transition, zeroing `_modeclock` when a threshold is reached.
(`_renderScan` only logs; it has no effect on this state.) -/
def step (s : State) (cycles : Nat) : State :=
  let s1 : State := { s with modeclock := s.modeclock + cycles }
  match s1.mode with
  | Modes.OamRead =>
    if 80 ≤ s1.modeclock then { s1 with modeclock := 0, mode := Modes.VramRead } else s1
  | Modes.VramRead =>
    if 172 ≤ s1.modeclock then { s1 with modeclock := 0, mode := Modes.HBlank } else s1
  | Modes.HBlank =>
    if 204 ≤ s1.modeclock then
      let line1 := s1.line + 1
      if line1 = 143 then { s1 with modeclock := 0, line := line1, mode := Modes.VBlank }
      else { s1 with modeclock := 0, line := line1, mode := Modes.OamRead }
    else s1
  | Modes.VBlank =>
    if 456 ≤ s1.modeclock then
      let line1 := s1.line + 1
      if 153 < line1 then { s1 with modeclock := 0, mode := Modes.OamRead, line := 0 }
      else { s1 with modeclock := 0, line := line1 }
    else s1

/-- Iterated `Gpu.step`: one call per element of the cycle list. -/
def run (s : State) (l : List Nat) : State := l.foldl step s

end Gpu

namespace Cpu

/-- The register state retained by the `Cpu` object after a `cycle`, whether
the dispatch succeeded or threw. -/
def CycleResult.regs {μ : Type} : CycleResult μ → IRegisterSet
  | .ok r _ _ => r
  | .err _ r _ => r

/-- The opcode byte interpolated into the thrown error message, when `cycle`
threw; `none` when it succeeded. -/
def CycleResult.errCode {μ : Type} : CycleResult μ → Option Int
  | .ok _ _ _ => none
  | .err code _ _ => some code

end Cpu

/-- A push operation followed by a pop operation over the byte store,
observing the final register file. -/
def pushPop (push pop : Cpu.IOperation Store) (r : Cpu.IRegisterSet) (m : Store) :
    Cpu.IRegisterSet :=
  (pop (push r m).1.1 (push r m).1.2).1.1

/- Concrete fixtures used by the theorems below. -/

/-- The all-zero byte store. -/
def memZero : Store := fun _ => 0

/-- The all-zero register file (the state after `Cpu._reset`). -/
def regsZero : Cpu.IRegisterSet :=
  { a := 0, b := 0, c := 0, d := 0, e := 0, h := 0, l := 0, f := 0, pc := 0, sp := 0 }

/-- Store holding 170 at address 512 and 187 at address 257, to distinguish
the two candidate HL address compositions. -/
def memC4 : Store := fun a => if a = 512 then 170 else if a = 257 then 187 else 0

/-- Register file with HL halves h = 1, l = 1 (architectural HL = 0x0101 = 257). -/
def regsC4 : Cpu.IRegisterSet := { regsZero with h := 1, l := 1 }

/-- Register file with `pc` at the top of the address space. -/
def regsC5a : Cpu.IRegisterSet := { regsZero with pc := 65535 }

/-- Store with opcode 0xF1 (POP AF) at address 0 and byte 0x0F at address 16. -/
def memC5 : Store := fun a => if a = 0 then 241 else if a = 16 then 15 else 0

/-- Register file with `sp` = 16, about to pop AF. -/
def regsC5b : Cpu.IRegisterSet := { regsZero with sp := 16 }

/-- Store returning the unpopulated opcode byte 0x07 everywhere. -/
def memC6 : Store := fun _ => 7

/-- Register file with `pc` = 5. -/
def regsC6 : Cpu.IRegisterSet := { regsZero with pc := 5 }

/-- Store with the CB-prefix byte 0xCB at address 0 and the populated CB-table
byte 0x37 (SWAP A) at address 1. -/
def memC7 : Store := fun a => if a = 0 then 203 else if a = 1 then 55 else 0

/-- Register file with a = 5 and the carry flag set (f = 0x10). -/
def regsC8 : Cpu.IRegisterSet := { regsZero with a := 5, f := 16 }

/-- A register file with distinct values in every register and `sp` = 100. -/
def regsC9 : Cpu.IRegisterSet :=
  { a := 18, b := 171, c := 205, d := 1, e := 2, h := 3, l := 4, f := 52, pc := 0, sp := 100 }

/-- Claim C1 (code bug): `add(0xFF, 0x01)` yields accumulator 0 with flags
Z and C set but H clear — the source's `add` never computes the half-carry
(its own comment says it is meant to set H on carry from bit 3), even though
the nibble sum 0xF + 0x1 here does carry out of bit 3 as the claim requires. -/
theorem C1_add_half_carry_missing :
    Cpu.add 255 1 = (0, 144) ∧
    jsAnd 144 Cpu.Flags.H = 0 ∧
    15 < jsAnd 255 15 + jsAnd 1 15 := by decide

set_option maxRecDepth 20000 in
/-- Claim C2 (code bug): starting from the claim's initial state
{OamScan, 0, 0} and stepping through 143 complete scanlines, the machine is in
VBlank with line = 143 < 144: the HBlank transition enters VBlank when the
incremented line equals 143, not 144, so the claimed reachability invariant
(VBlank implies 144 ≤ line) fails. -/
theorem C2_vblank_entered_at_line_143 :
    Gpu.run { mode := Gpu.Modes.OamRead, modeclock := 0, line := 0 }
        ((List.replicate 143 [80, 172, 204]).flatten) =
      { mode := Gpu.Modes.VBlank, modeclock := 0, line := 143 } ∧
    ¬ 144 ≤ 143 := by decide

/-- Claim C3 (code bug): `advance(80); advance(1)` and `advance(81)` from
{OamScan, 0, 0} reach different states (the transition zeroes `modeClock`,
discarding the remainder 1), and a single `advance(10000)` applies only one
mode transition instead of cascading. -/
theorem C3_advance_not_additive :
    Gpu.step (Gpu.step { mode := Gpu.Modes.OamRead, modeclock := 0, line := 0 } 80) 1 ≠
      Gpu.step { mode := Gpu.Modes.OamRead, modeclock := 0, line := 0 } 81 ∧
    Gpu.step { mode := Gpu.Modes.OamRead, modeclock := 0, line := 0 } 10000 =
      { mode := Gpu.Modes.VramRead, modeclock := 0, line := 0 } := by decide

/-- Claim C4 (code bug): with h = 1, l = 1 the pair-addressed loads and stores
access address `1 << (8 + 1)` = 512, not the architectural
`1 * 256 + 1` = 257: LD A,(HL) reads the byte at 512, LD (HL),A writes 512 and
leaves 257 untouched, and LD A,(BC) with b = c = 1 shows the same defect. -/
theorem C4_pair_address_precedence :
    (Cpu.LD_A_HL store regsC4 memC4).1.1.a = 170 ∧
    jsShl 1 (8 + 1) = 512 ∧ (1 : Int) * 256 + 1 = 257 ∧ memC4 257 = 187 ∧
    (Cpu.LD_HL_A store { regsC4 with a := 99 } memC4).1.2 512 = 99 ∧
    (Cpu.LD_HL_A store { regsC4 with a := 99 } memC4).1.2 257 = 187 ∧
    (Cpu.LD_A_BC store { regsZero with b := 1, c := 1 } memC4).1.1.a = 170 := by decide

/-- Claim C5 (code bug): executing NOP at pc = 0xFFFF leaves pc = 0x10000
(never reduced mod 65536), and executing POP AF with memory byte 0x0F at the
stack pointer leaves f = 0x0F, whose low nibble is not 0 — both violating the
claimed register-file invariant. -/
theorem C5_registers_not_masked :
    (Cpu.cycle store regsC5a memZero).regs.pc = 65536 ∧
    (65536 : Int) ≠ 65536 % 65536 ∧
    (Cpu.cycle store regsC5b memC5).regs.f = 15 ∧
    ¬ (15 : Int) % 16 = 0 := by decide

/-- Counterexample for claim C6: dispatching the unpopulated opcode 0x07 at
pc = 5 throws an error carrying the byte 7, but the retained register state
has pc = 6 ≠ 5 — the fetch already mutated pc, so the state is not unchanged
on error as the claim asserts. -/
theorem C6_state_mutated_on_error :
    (Cpu.cycle store regsC6 memC6).errCode = some 7 ∧
    (Cpu.cycle store regsC6 memC6).regs.pc = 6 ∧ (6 : Int) ≠ 5 := by decide

/-- Claim C6 as amended: for every opcode byte whose primary-table slot is
unpopulated, `cycle` fails with an error carrying exactly that opcode byte
(not pc), the memory is untouched, and the register state is unchanged except
that pc has been advanced by 1 by the fetch. -/
theorem C6_unimplemented_error {μ : Type} (P : Cpu.IMemory μ) (r : Cpu.IRegisterSet) (m : μ)
    (h : Cpu.lookup P (P.rb m r.pc) = none) :
    Cpu.cycle P r m = Cpu.CycleResult.err (P.rb m r.pc) { r with pc := r.pc + 1 } m := by
  simp only [Cpu.cycle]
  rw [h]

/-- Witness for the amended C6 at opcode byte 7 and pc = 5. -/
theorem C6_unimplemented_error_witness :
    Cpu.lookup store (store.rb memC6 regsC6.pc) = none ∧
    Cpu.cycle store regsC6 memC6 =
      Cpu.CycleResult.err (store.rb memC6 regsC6.pc) { regsC6 with pc := regsC6.pc + 1 } memC6 :=
  ⟨rfl, C6_unimplemented_error store regsC6 memC6 rfl⟩

/-- Claim C7 (code bug): the CB-table slot for byte 0x37 (SWAP A) is
populated, yet executing 0xCB 0x37 does not run it: `cycle` consults only the
primary table, where 0xCB is an unpopulated slot, so it throws with opcode
byte 0xCB after advancing pc only to 1. -/
theorem C7_cb_table_not_dispatched :
    ((Cpu.oCbMap store).getD 55 none).isSome = true ∧
    (Cpu.cycle store regsZero memC7).errCode = some 203 ∧
    (Cpu.cycle store regsZero memC7).regs.pc = 1 := by decide

/-- Claim C8 (code bug): INC A at a = 5 with the carry flag set (f = 0x10)
increments a to 6 but leaves f = 0 — `resetFlags` cleared the C bit that the
claim says INC/DEC never touch; DEC A from the same state likewise ends with
f = 0. -/
theorem C8_inc_dec_clear_carry :
    (Cpu.INC_A regsC8 memZero).1.1.a = 6 ∧ (Cpu.INC_A regsC8 memZero).1.1.f = 0 ∧
    jsAnd regsC8.f Cpu.Flags.C = 16 ∧ jsAnd 0 Cpu.Flags.C = 0 ∧
    (Cpu.DEC_A regsC8 memZero).1.1.a = 4 ∧ (Cpu.DEC_A regsC8 memZero).1.1.f = 0 := by decide

/-- Claim C9: over the byte store, pushing any register pair (AF, BC, DE or
HL) and then popping it restores both halves of the pair exactly and returns
`sp` to its value before the push, for every register file whose `sp` lies in
0x0002..0xFFFE and every memory contents. -/
theorem C9_push_pop_roundtrip (r : Cpu.IRegisterSet) (m : Store)
    (_h1 : 2 ≤ r.sp) (_h2 : r.sp ≤ 65534) :
    (pushPop (Cpu.PUSH_AF store) (Cpu.POP_AF store) r m).a = r.a ∧
    (pushPop (Cpu.PUSH_AF store) (Cpu.POP_AF store) r m).f = r.f ∧
    (pushPop (Cpu.PUSH_AF store) (Cpu.POP_AF store) r m).sp = r.sp ∧
    (pushPop (Cpu.PUSH_BC store) (Cpu.POP_BC store) r m).b = r.b ∧
    (pushPop (Cpu.PUSH_BC store) (Cpu.POP_BC store) r m).c = r.c ∧
    (pushPop (Cpu.PUSH_BC store) (Cpu.POP_BC store) r m).sp = r.sp ∧
    (pushPop (Cpu.PUSH_DE store) (Cpu.POP_DE store) r m).d = r.d ∧
    (pushPop (Cpu.PUSH_DE store) (Cpu.POP_DE store) r m).e = r.e ∧
    (pushPop (Cpu.PUSH_DE store) (Cpu.POP_DE store) r m).sp = r.sp ∧
    (pushPop (Cpu.PUSH_HL store) (Cpu.POP_HL store) r m).h = r.h ∧
    (pushPop (Cpu.PUSH_HL store) (Cpu.POP_HL store) r m).l = r.l ∧
    (pushPop (Cpu.PUSH_HL store) (Cpu.POP_HL store) r m).sp = r.sp := by
  refine ⟨?_, ?_, ?_, ?_, ?_, ?_, ?_, ?_, ?_, ?_, ?_, ?_⟩ <;>
    simp only [pushPop, Cpu.PUSH_AF, Cpu.POP_AF, Cpu.PUSH_BC, Cpu.POP_BC,
      Cpu.PUSH_DE, Cpu.POP_DE, Cpu.PUSH_HL, Cpu.POP_HL, Cpu.createOp, store] <;>
    (first | (split_ifs <;> first | rfl | omega) | omega)
/-- Witness for C9: the round trip evaluated at a concrete register file and the
all-zero store, with the stack-pointer hypotheses discharged. -/
theorem C9_push_pop_roundtrip_witness :
    (2 ≤ regsC9.sp ∧ regsC9.sp ≤ 65534) ∧
    ((pushPop (Cpu.PUSH_AF store) (Cpu.POP_AF store) regsC9 memZero).a = regsC9.a ∧
    (pushPop (Cpu.PUSH_AF store) (Cpu.POP_AF store) regsC9 memZero).f = regsC9.f ∧
    (pushPop (Cpu.PUSH_AF store) (Cpu.POP_AF store) regsC9 memZero).sp = regsC9.sp ∧
    (pushPop (Cpu.PUSH_BC store) (Cpu.POP_BC store) regsC9 memZero).b = regsC9.b ∧
    (pushPop (Cpu.PUSH_BC store) (Cpu.POP_BC store) regsC9 memZero).c = regsC9.c ∧
    (pushPop (Cpu.PUSH_BC store) (Cpu.POP_BC store) regsC9 memZero).sp = regsC9.sp ∧
    (pushPop (Cpu.PUSH_DE store) (Cpu.POP_DE store) regsC9 memZero).d = regsC9.d ∧
    (pushPop (Cpu.PUSH_DE store) (Cpu.POP_DE store) regsC9 memZero).e = regsC9.e ∧
    (pushPop (Cpu.PUSH_DE store) (Cpu.POP_DE store) regsC9 memZero).sp = regsC9.sp ∧
    (pushPop (Cpu.PUSH_HL store) (Cpu.POP_HL store) regsC9 memZero).h = regsC9.h ∧
    (pushPop (Cpu.PUSH_HL store) (Cpu.POP_HL store) regsC9 memZero).l = regsC9.l ∧
    (pushPop (Cpu.PUSH_HL store) (Cpu.POP_HL store) regsC9 memZero).sp = regsC9.sp) :=
  ⟨⟨by decide, by decide⟩,
    C9_push_pop_roundtrip regsC9 memZero (by decide) (by decide)⟩

/-- Claim C10: every `LD_*` entry of the operation object — register-to-register,
memory loads and stores, the HL auto-increment/decrement forms, the 0xFF00-page
forms and the 16-bit pair loads — leaves the flags register `f` unchanged, for
every register state and every memory. -/
theorem C10_ld_preserves_flags {μ : Type} (P : Cpu.IMemory μ) (r : Cpu.IRegisterSet) (m : μ) :
    (Cpu.LD_A_A r m).1.1.f = r.f ∧
    (Cpu.LD_A_B r m).1.1.f = r.f ∧
    (Cpu.LD_A_C r m).1.1.f = r.f ∧
    (Cpu.LD_A_D r m).1.1.f = r.f ∧
    (Cpu.LD_A_E r m).1.1.f = r.f ∧
    (Cpu.LD_A_H r m).1.1.f = r.f ∧
    (Cpu.LD_A_L r m).1.1.f = r.f ∧
    (Cpu.LD_A_BC P r m).1.1.f = r.f ∧
    (Cpu.LD_A_DE P r m).1.1.f = r.f ∧
    (Cpu.LD_A_HL P r m).1.1.f = r.f ∧
    (Cpu.LD_A_nn P r m).1.1.f = r.f ∧
    (Cpu.LD_A_n P r m).1.1.f = r.f ∧
    (Cpu.LD_B_A r m).1.1.f = r.f ∧
    (Cpu.LD_B_B r m).1.1.f = r.f ∧
    (Cpu.LD_B_C r m).1.1.f = r.f ∧
    (Cpu.LD_B_D r m).1.1.f = r.f ∧
    (Cpu.LD_B_E r m).1.1.f = r.f ∧
    (Cpu.LD_B_H r m).1.1.f = r.f ∧
    (Cpu.LD_B_L r m).1.1.f = r.f ∧
    (Cpu.LD_B_BC P r m).1.1.f = r.f ∧
    (Cpu.LD_B_DE P r m).1.1.f = r.f ∧
    (Cpu.LD_B_HL P r m).1.1.f = r.f ∧
    (Cpu.LD_B_nn P r m).1.1.f = r.f ∧
    (Cpu.LD_B_n P r m).1.1.f = r.f ∧
    (Cpu.LD_C_A r m).1.1.f = r.f ∧
    (Cpu.LD_C_B r m).1.1.f = r.f ∧
    (Cpu.LD_C_C r m).1.1.f = r.f ∧
    (Cpu.LD_C_D r m).1.1.f = r.f ∧
    (Cpu.LD_C_E r m).1.1.f = r.f ∧
    (Cpu.LD_C_H r m).1.1.f = r.f ∧
    (Cpu.LD_C_L r m).1.1.f = r.f ∧
    (Cpu.LD_C_BC P r m).1.1.f = r.f ∧
    (Cpu.LD_C_DE P r m).1.1.f = r.f ∧
    (Cpu.LD_C_HL P r m).1.1.f = r.f ∧
    (Cpu.LD_C_nn P r m).1.1.f = r.f ∧
    (Cpu.LD_C_n P r m).1.1.f = r.f ∧
    (Cpu.LD_D_A r m).1.1.f = r.f ∧
    (Cpu.LD_D_B r m).1.1.f = r.f ∧
    (Cpu.LD_D_C r m).1.1.f = r.f ∧
    (Cpu.LD_D_D r m).1.1.f = r.f ∧
    (Cpu.LD_D_E r m).1.1.f = r.f ∧
    (Cpu.LD_D_H r m).1.1.f = r.f ∧
    (Cpu.LD_D_L r m).1.1.f = r.f ∧
    (Cpu.LD_D_BC P r m).1.1.f = r.f ∧
    (Cpu.LD_D_DE P r m).1.1.f = r.f ∧
    (Cpu.LD_D_HL P r m).1.1.f = r.f ∧
    (Cpu.LD_D_nn P r m).1.1.f = r.f ∧
    (Cpu.LD_D_n P r m).1.1.f = r.f ∧
    (Cpu.LD_E_A r m).1.1.f = r.f ∧
    (Cpu.LD_E_B r m).1.1.f = r.f ∧
    (Cpu.LD_E_C r m).1.1.f = r.f ∧
    (Cpu.LD_E_D r m).1.1.f = r.f ∧
    (Cpu.LD_E_E r m).1.1.f = r.f ∧
    (Cpu.LD_E_H r m).1.1.f = r.f ∧
    (Cpu.LD_E_L r m).1.1.f = r.f ∧
    (Cpu.LD_E_BC P r m).1.1.f = r.f ∧
    (Cpu.LD_E_DE P r m).1.1.f = r.f ∧
    (Cpu.LD_E_HL P r m).1.1.f = r.f ∧
    (Cpu.LD_E_nn P r m).1.1.f = r.f ∧
    (Cpu.LD_E_n P r m).1.1.f = r.f ∧
    (Cpu.LD_H_A r m).1.1.f = r.f ∧
    (Cpu.LD_H_B r m).1.1.f = r.f ∧
    (Cpu.LD_H_C r m).1.1.f = r.f ∧
    (Cpu.LD_H_D r m).1.1.f = r.f ∧
    (Cpu.LD_H_E r m).1.1.f = r.f ∧
    (Cpu.LD_H_H r m).1.1.f = r.f ∧
    (Cpu.LD_H_L r m).1.1.f = r.f ∧
    (Cpu.LD_H_BC P r m).1.1.f = r.f ∧
    (Cpu.LD_H_DE P r m).1.1.f = r.f ∧
    (Cpu.LD_H_HL P r m).1.1.f = r.f ∧
    (Cpu.LD_H_nn P r m).1.1.f = r.f ∧
    (Cpu.LD_H_n P r m).1.1.f = r.f ∧
    (Cpu.LD_L_A r m).1.1.f = r.f ∧
    (Cpu.LD_L_B r m).1.1.f = r.f ∧
    (Cpu.LD_L_C r m).1.1.f = r.f ∧
    (Cpu.LD_L_D r m).1.1.f = r.f ∧
    (Cpu.LD_L_E r m).1.1.f = r.f ∧
    (Cpu.LD_L_H r m).1.1.f = r.f ∧
    (Cpu.LD_L_L r m).1.1.f = r.f ∧
    (Cpu.LD_L_BC P r m).1.1.f = r.f ∧
    (Cpu.LD_L_DE P r m).1.1.f = r.f ∧
    (Cpu.LD_L_HL P r m).1.1.f = r.f ∧
    (Cpu.LD_L_nn P r m).1.1.f = r.f ∧
    (Cpu.LD_L_n P r m).1.1.f = r.f ∧
    (Cpu.LD_HL_B P r m).1.1.f = r.f ∧
    (Cpu.LD_HL_C P r m).1.1.f = r.f ∧
    (Cpu.LD_HL_D P r m).1.1.f = r.f ∧
    (Cpu.LD_HL_E P r m).1.1.f = r.f ∧
    (Cpu.LD_HL_H P r m).1.1.f = r.f ∧
    (Cpu.LD_HL_L P r m).1.1.f = r.f ∧
    (Cpu.LD_HL_n P r m).1.1.f = r.f ∧
    (Cpu.LD_BC_A P r m).1.1.f = r.f ∧
    (Cpu.LD_DE_A P r m).1.1.f = r.f ∧
    (Cpu.LD_HL_A P r m).1.1.f = r.f ∧
    (Cpu.LD_nn_A P r m).1.1.f = r.f ∧
    (Cpu.LD_A_FFC P r m).1.1.f = r.f ∧
    (Cpu.LD_FFC_A P r m).1.1.f = r.f ∧
    (Cpu.LD_A_HLD P r m).1.1.f = r.f ∧
    (Cpu.LD_HLD_A P r m).1.1.f = r.f ∧
    (Cpu.LD_A_HLI P r m).1.1.f = r.f ∧
    (Cpu.LD_HLI_A P r m).1.1.f = r.f ∧
    (Cpu.LD_FFn_A P r m).1.1.f = r.f ∧
    (Cpu.LD_A_FFn P r m).1.1.f = r.f ∧
    (Cpu.LD_BC_nn P r m).1.1.f = r.f ∧
    (Cpu.LD_DE_nn P r m).1.1.f = r.f ∧
    (Cpu.LD_HL_nn P r m).1.1.f = r.f ∧
    (Cpu.LD_SP_nn P r m).1.1.f = r.f ∧
    (Cpu.LD_SP_HL P r m).1.1.f = r.f ∧
    (Cpu.LD_HL_SPn P r m).1.1.f = r.f ∧
    (Cpu.LD_nn_SP P r m).1.1.f = r.f :=
  ⟨rfl, rfl, rfl, rfl, rfl, rfl, rfl, rfl, rfl, rfl, rfl, rfl, rfl, rfl, rfl, rfl, rfl, rfl, rfl, rfl, rfl, rfl, rfl, rfl, rfl, rfl, rfl, rfl, rfl, rfl, rfl, rfl, rfl, rfl, rfl, rfl, rfl, rfl, rfl, rfl, rfl, rfl, rfl, rfl, rfl, rfl, rfl, rfl, rfl, rfl, rfl, rfl, rfl, rfl, rfl, rfl, rfl, rfl, rfl, rfl, rfl, rfl, rfl, rfl, rfl, rfl, rfl, rfl, rfl, rfl, rfl, rfl, rfl, rfl, rfl, rfl, rfl, rfl, rfl, rfl, rfl, rfl, rfl, rfl, rfl, rfl, rfl, rfl, rfl, rfl, rfl, rfl, rfl, rfl, rfl, rfl, rfl, rfl, rfl, rfl, rfl, rfl, rfl, rfl, rfl, rfl, rfl, rfl, rfl, rfl⟩
